import Mathlib

/-!
Shallow embedding of `color_analyzer.py`: a color-classification engine that
maps an HSV pixel region to per-band percentages, ranks dominant display
names, flags colorblindness-problematic colors and classifies traffic lights.

An ROI is modelled as the list of its pixels after the one-time BGR→HSV
conversion (the conversion itself is an external primitive; all logic under
verification only reads HSV triples).  A zero-area ROI is the empty list.
Python floats are modelled as exact rationals; `round(x, 1)` is modelled as
round-half-to-even at one decimal, matching Python's rounding mode.
-/

set_option maxRecDepth 100000

namespace ColorAnalysis

/-- One HSV pixel: hue in [0,180], saturation and value in [0,255]. -/
structure HsvPixel where
  h : Nat
  s : Nat
  v : Nat
deriving DecidableEq

/-- The eight variants of the Python `ColorBlindnessType` enum. -/
inductive ColorBlindnessType where
  | NORMAL
  | PROTANOPIA
  | PROTANOMALY
  | DEUTERANOPIA
  | DEUTERANOMALY
  | TRITANOPIA
  | TRITANOMALY
  | ACHROMATOPSIA
deriving DecidableEq

/-- The `COLOR_RANGES` table: band name ↦ ((hMin,sMin,vMin),(hMax,sMax,vMax)),
in the source's (insertion-order-preserving) dict order. -/
def COLOR_RANGES : List (String × HsvPixel × HsvPixel) :=
  [ ("red_low", ⟨0, 100, 100⟩, ⟨10, 255, 255⟩),
    ("red_high", ⟨160, 100, 100⟩, ⟨180, 255, 255⟩),
    ("dark_red", ⟨0, 100, 50⟩, ⟨10, 255, 100⟩),
    ("dark_red_high", ⟨160, 100, 50⟩, ⟨180, 255, 100⟩),
    ("orange", ⟨10, 100, 100⟩, ⟨20, 255, 255⟩),
    ("rust_orange", ⟨10, 80, 80⟩, ⟨20, 255, 150⟩),
    ("brown", ⟨10, 50, 50⟩, ⟨25, 200, 150⟩),
    ("dark_brown", ⟨10, 50, 30⟩, ⟨25, 200, 80⟩),
    ("tan", ⟨15, 30, 150⟩, ⟨30, 100, 220⟩),
    ("yellow", ⟨25, 100, 100⟩, ⟨35, 255, 255⟩),
    ("gold", ⟨20, 80, 100⟩, ⟨30, 255, 200⟩),
    ("pale_yellow", ⟨25, 40, 180⟩, ⟨35, 100, 255⟩),
    ("green", ⟨35, 100, 100⟩, ⟨85, 255, 255⟩),
    ("lime", ⟨35, 100, 150⟩, ⟨55, 255, 255⟩),
    ("dark_green", ⟨35, 100, 30⟩, ⟨85, 255, 100⟩),
    ("olive", ⟨30, 30, 50⟩, ⟨50, 150, 150⟩),
    ("teal", ⟨80, 80, 80⟩, ⟨95, 255, 200⟩),
    ("cyan", ⟨85, 100, 100⟩, ⟨100, 255, 255⟩),
    ("blue", ⟨100, 100, 100⟩, ⟨130, 255, 255⟩),
    ("light_blue", ⟨100, 50, 150⟩, ⟨115, 150, 255⟩),
    ("dark_blue", ⟨100, 100, 50⟩, ⟨130, 255, 120⟩),
    ("purple", ⟨130, 100, 100⟩, ⟨145, 255, 255⟩),
    ("violet", ⟨145, 80, 80⟩, ⟨160, 255, 255⟩),
    ("lavender", ⟨130, 30, 150⟩, ⟨155, 100, 255⟩),
    ("magenta", ⟨150, 100, 100⟩, ⟨165, 255, 255⟩),
    ("plum", ⟨140, 50, 50⟩, ⟨160, 150, 150⟩),
    ("pink", ⟨160, 50, 150⟩, ⟨175, 200, 255⟩),
    ("hot_pink", ⟨165, 100, 150⟩, ⟨175, 255, 255⟩),
    ("white", ⟨0, 0, 200⟩, ⟨180, 30, 255⟩),
    ("gray", ⟨0, 0, 80⟩, ⟨180, 30, 200⟩),
    ("black", ⟨0, 0, 0⟩, ⟨180, 255, 50⟩) ]

/-- The `PROBLEMATIC_COLORS` table: which band names are visually confusable
for each colorblindness type.  `ACHROMATOPSIA` takes every key of
`COLOR_RANGES`, exactly as `list(COLOR_RANGES.keys())` does. -/
def PROBLEMATIC_COLORS : ColorBlindnessType → List String
  | .NORMAL => []
  | .PROTANOPIA =>
      ["red_low", "red_high", "dark_red", "dark_red_high",
       "orange", "rust_orange", "brown", "dark_brown",
       "green", "dark_green", "olive", "lime"]
  | .PROTANOMALY =>
      ["red_low", "red_high", "dark_red", "dark_red_high",
       "orange", "rust_orange", "brown"]
  | .DEUTERANOPIA =>
      ["red_low", "red_high", "dark_red", "dark_red_high",
       "green", "dark_green", "lime", "olive",
       "yellow", "gold", "brown"]
  | .DEUTERANOMALY =>
      ["green", "dark_green", "lime", "olive",
       "yellow", "gold"]
  | .TRITANOPIA =>
      ["blue", "light_blue", "dark_blue",
       "yellow", "gold", "pale_yellow",
       "cyan", "teal",
       "violet", "purple"]
  | .TRITANOMALY =>
      ["blue", "light_blue",
       "yellow", "gold"]
  | .ACHROMATOPSIA => COLOR_RANGES.map Prod.fst

/-- The `COLOR_DISPLAY_NAMES` table: band name ↦ human-readable label. -/
def COLOR_DISPLAY_NAMES : List (String × String) :=
  [ ("red_low", "red"),
    ("red_high", "red"),
    ("dark_red", "dark red (maroon)"),
    ("dark_red_high", "dark red (burgundy)"),
    ("orange", "orange"),
    ("rust_orange", "rust orange"),
    ("brown", "brown"),
    ("dark_brown", "dark brown (chocolate)"),
    ("tan", "tan (beige)"),
    ("yellow", "yellow"),
    ("gold", "gold (amber)"),
    ("pale_yellow", "pale yellow (cream)"),
    ("green", "green"),
    ("lime", "lime green"),
    ("dark_green", "dark green (forest)"),
    ("olive", "olive (khaki)"),
    ("teal", "teal"),
    ("cyan", "cyan"),
    ("blue", "blue"),
    ("light_blue", "light blue (sky)"),
    ("dark_blue", "dark blue (navy)"),
    ("purple", "purple"),
    ("violet", "violet"),
    ("lavender", "lavender"),
    ("magenta", "magenta (fuchsia)"),
    ("plum", "plum"),
    ("pink", "pink"),
    ("hot_pink", "hot pink"),
    ("white", "white"),
    ("gray", "gray"),
    ("black", "black") ]

/-- `COLOR_DISPLAY_NAMES.get(color_name, color_name)`. -/
def displayName (n : String) : String :=
  (COLOR_DISPLAY_NAMES.lookup n).getD n

/-- `cv2.inRange` membership for one pixel: all three channels inside the
inclusive `[min, max]` bounds simultaneously. -/
def inRange (lo hi p : HsvPixel) : Bool :=
  decide (lo.h ≤ p.h ∧ p.h ≤ hi.h ∧ lo.s ≤ p.s ∧ p.s ≤ hi.s ∧ lo.v ≤ p.v ∧ p.v ≤ hi.v)

/-- Round-half-to-even to an integer, the rounding mode of Python `round`. -/
def roundHalfEven (q : ℚ) : ℤ :=
  if q - q.floor < 1 / 2 then q.floor
  else if 1 / 2 < q - q.floor then q.floor + 1
  else if q.floor % 2 = 0 then q.floor else q.floor + 1

/-- Python `round(q, 1)`: round to one decimal place, ties to even. -/
def round1 (q : ℚ) : ℚ :=
  (roundHalfEven (q * 10) : ℚ) / 10

/-- `(color_pixels / total_pixels) * 100` for one band over an ROI. -/
def bandPercentage (roi : List HsvPixel) (lo hi : HsvPixel) : ℚ :=
  ((roi.countP fun p => inRange lo hi p : Nat) : ℚ) / (roi.length : ℚ) * 100

/-- `ColorAnalyzer.detect_colors`: percentage of pixels per band, keeping
only bands above the 5% threshold, rounded to one decimal, in table order. -/
def detect_colors (roi : List HsvPixel) : List (String × ℚ) :=
  if roi.length = 0 then []
  else
    COLOR_RANGES.filterMap fun e =>
      if 5 < bandPercentage roi e.2.1 e.2.2 then
        some (e.1, round1 (bandPercentage roi e.2.1 e.2.2))
      else none

/-- The descending-percentage preorder used by the Python
`sorted(..., key=lambda x: x[1], reverse=True)` call. -/
def pctDescending (a b : String × ℚ) : Prop :=
  b.2 ≤ a.2

instance : DecidableRel pctDescending :=
  fun a b => inferInstanceAs (Decidable (b.2 ≤ a.2))

instance : IsTotal (String × ℚ) pctDescending :=
  ⟨fun a b => le_total b.2 a.2⟩

instance : IsTrans (String × ℚ) pctDescending :=
  ⟨fun _ _ _ hab hbc => le_trans hbc hab⟩

/-- Python's `sorted` is a stable sort; insertion sort is one, so the two
agree as functions.  Entries are ordered by percentage descending, ties
keeping their original relative order. -/
def sortedColors (l : List (String × ℚ)) : List (String × ℚ) :=
  l.insertionSort pctDescending

/-- The `for color_name, _ in sorted_colors` loop of `get_dominant_colors`:
append the display name if unseen, then stop once `top_n` names are held.
The `seen` set always holds exactly the names already in `dominant`, so the
accumulator doubles as the seen set. -/
def dominantLoop (top_n : Nat) : List (String × ℚ) → List String → List String
  | [], dominant => dominant
  | e :: rest, dominant =>
    if displayName e.1 ∈ dominant then
      if top_n ≤ dominant.length then dominant
      else dominantLoop top_n rest dominant
    else
      if top_n ≤ (dominant ++ [displayName e.1]).length then
        dominant ++ [displayName e.1]
      else dominantLoop top_n rest (dominant ++ [displayName e.1])

/-- `ColorAnalyzer.get_dominant_colors`. -/
def get_dominant_colors (roi : List HsvPixel) (top_n : Nat := 3) : List String :=
  dominantLoop top_n (sortedColors (detect_colors roi)) []

/-- The inner collection loop of `is_problematic_for_user`: the
`(display_name, percentage)` pairs of detected bands that are in the
profile's problematic set and exceed 10%. -/
def foundProblematic (detected : List (String × ℚ)) (t : ColorBlindnessType) :
    List (String × ℚ) :=
  detected.filterMap fun e =>
    if e.1 ∈ PROBLEMATIC_COLORS t ∧ 10 < e.2 then
      some (displayName e.1, e.2)
    else none

/-- `ColorAnalyzer.is_problematic_for_user`. -/
def is_problematic_for_user (detected : List (String × ℚ))
    (t : ColorBlindnessType) : Bool × Option String :=
  if (PROBLEMATIC_COLORS t).isEmpty then (false, none)
  else if (foundProblematic detected t).isEmpty then (false, none)
  else
    (true, some ("Contains " ++
      String.intercalate ", " (((foundProblematic detected t).take 2).map Prod.fst) ++
      " - may be difficult to see"))

/-- Result record of `ColorAnalyzer.analyze_region`; the zero-area branch
returns a dict without the `color_breakdown` key, hence the `Option`. -/
structure AnalysisResult where
  dominant_colors : List String
  is_problematic : Bool
  warning : Option String
  color_breakdown : Option (List (String × ℚ))
deriving DecidableEq

/-- `ColorAnalyzer.analyze_region`. -/
def analyze_region (roi : List HsvPixel) (t : ColorBlindnessType) :
    AnalysisResult :=
  if roi.length = 0 then ⟨[], false, none, none⟩
  else
    ⟨get_dominant_colors roi 3,
     (is_problematic_for_user (detect_colors roi) t).1,
     (is_problematic_for_user (detect_colors roi) t).2,
     some (detect_colors roi)⟩

/-- Result record of `ColorAnalyzer.analyze_traffic_light`. -/
structure TrafficLightResult where
  state : String
  confidence : ℚ
deriving DecidableEq

/-- `colors.get("red_low", 0) + colors.get("red_high", 0)`. -/
def tl_red_pct (colors : List (String × ℚ)) : ℚ :=
  (colors.lookup "red_low").getD 0 + (colors.lookup "red_high").getD 0

/-- `colors.get("yellow", 0)`. -/
def tl_yellow_pct (colors : List (String × ℚ)) : ℚ :=
  (colors.lookup "yellow").getD 0

/-- `colors.get("green", 0)`. -/
def tl_green_pct (colors : List (String × ℚ)) : ℚ :=
  (colors.lookup "green").getD 0

/-- `ColorAnalyzer.analyze_traffic_light`. -/
def analyze_traffic_light (roi : List HsvPixel) : TrafficLightResult :=
  if roi.length = 0 then ⟨"unknown", 0⟩
  else if tl_yellow_pct (detect_colors roi) < tl_red_pct (detect_colors roi) ∧
      tl_green_pct (detect_colors roi) < tl_red_pct (detect_colors roi) ∧
      10 < tl_red_pct (detect_colors roi) then
    ⟨"red", min (tl_red_pct (detect_colors roi) / 100) 1⟩
  else if tl_red_pct (detect_colors roi) < tl_yellow_pct (detect_colors roi) ∧
      tl_green_pct (detect_colors roi) < tl_yellow_pct (detect_colors roi) ∧
      10 < tl_yellow_pct (detect_colors roi) then
    ⟨"yellow", min (tl_yellow_pct (detect_colors roi) / 100) 1⟩
  else if tl_red_pct (detect_colors roi) < tl_green_pct (detect_colors roi) ∧
      tl_yellow_pct (detect_colors roi) < tl_green_pct (detect_colors roi) ∧
      10 < tl_green_pct (detect_colors roi) then
    ⟨"green", min (tl_green_pct (detect_colors roi) / 100) 1⟩
  else ⟨"unknown", 0⟩

/-- Specification-side greedy deduplication: keep the first occurrence of
each display name, skipping names already in `seen`. -/
def dedupFirst (seen : List String) : List String → List String
  | [] => []
  | d :: rest => if d ∈ seen then dedupFirst seen rest else d :: dedupFirst (d :: seen) rest

/-- The seven hue families of the palette, as grouped by the source table's
section comments. -/
def hueFamilies : List (List String) :=
  [ ["red_low", "red_high", "dark_red", "dark_red_high"],
    ["orange", "rust_orange", "brown", "dark_brown", "tan"],
    ["yellow", "gold", "pale_yellow"],
    ["green", "lime", "dark_green", "olive", "teal"],
    ["cyan", "blue", "light_blue", "dark_blue"],
    ["purple", "violet", "lavender", "magenta", "plum"],
    ["pink", "hot_pink"] ]

/-- The three neutral bands of the palette. -/
def neutralBands : List String :=
  ["white", "gray", "black"]

/-- The `ColorAnalyzer` class: its `__init__` stores nothing and no method
ever assigns an attribute, so the instance state has a single value. -/
inductive ColorAnalyzer where
  | mk
deriving DecidableEq

/-- `detect_colors` as a method: explicit state passing, returning the result
together with the (unchanged) instance. -/
def ColorAnalyzer.detectColorsM (a : ColorAnalyzer) (roi : List HsvPixel) :
    List (String × ℚ) × ColorAnalyzer :=
  (detect_colors roi, a)

/-- `get_dominant_colors` as a state-passing method. -/
def ColorAnalyzer.dominantColorsM (a : ColorAnalyzer) (roi : List HsvPixel)
    (top_n : Nat) : List String × ColorAnalyzer :=
  (get_dominant_colors roi top_n, a)

/-- `is_problematic_for_user` as a state-passing method. -/
def ColorAnalyzer.problematicM (a : ColorAnalyzer)
    (detected : List (String × ℚ)) (t : ColorBlindnessType) :
    (Bool × Option String) × ColorAnalyzer :=
  (is_problematic_for_user detected t, a)

/-- `analyze_region` as a state-passing method. -/
def ColorAnalyzer.regionM (a : ColorAnalyzer) (roi : List HsvPixel)
    (t : ColorBlindnessType) : AnalysisResult × ColorAnalyzer :=
  (analyze_region roi t, a)

/-- `analyze_traffic_light` as a state-passing method. -/
def ColorAnalyzer.trafficM (a : ColorAnalyzer) (roi : List HsvPixel) :
    TrafficLightResult × ColorAnalyzer :=
  (analyze_traffic_light roi, a)

/-- A 10-pixel uniformly red ROI: every pixel lies in the `red_low` band
and in no other band. -/
def roiRed10 : List HsvPixel :=
  List.replicate 10 ⟨5, 150, 150⟩

/-- A 10-pixel uniformly green ROI: every pixel lies in the `green` and
`lime` bands. -/
def roiGreen10 : List HsvPixel :=
  List.replicate 10 ⟨50, 200, 200⟩

/-- A 119-pixel ROI with 6 `red_low` pixels: the `red_low` raw percentage is
600/119 ≈ 5.042, strictly above the 5% threshold but rounding down to 5.0. -/
def roiBoundary : List HsvPixel :=
  List.replicate 6 ⟨5, 150, 150⟩ ++ List.replicate 113 ⟨50, 200, 200⟩

/-! ### Rounding lemmas -/

theorem ratFloor_eq (q : ℚ) : q.floor = ⌊q⌋ := by
  rw [Rat.floor_def', Rat.floor_def]

theorem roundHalfEven_cases (q : ℚ) :
    roundHalfEven q = ⌊q⌋ ∨ (roundHalfEven q = ⌊q⌋ + 1 ∧ 1 / 2 ≤ q - ⌊q⌋) := by
  unfold roundHalfEven
  rw [ratFloor_eq]
  split_ifs with h1 h2 h3
  · exact Or.inl rfl
  · exact Or.inr ⟨rfl, le_of_lt h2⟩
  · exact Or.inl rfl
  · exact Or.inr ⟨rfl, le_of_not_lt h1⟩

theorem le_roundHalfEven {n : ℤ} {q : ℚ} (h : (n : ℚ) ≤ q) : n ≤ roundHalfEven q := by
  have hf : n ≤ ⌊q⌋ := Int.le_floor.mpr h
  rcases roundHalfEven_cases q with hc | ⟨hc, _⟩ <;> rw [hc] <;> omega

theorem roundHalfEven_le {n : ℤ} {q : ℚ} (h : q ≤ (n : ℚ)) : roundHalfEven q ≤ n := by
  have hf : ⌊q⌋ ≤ n := by
    have := Int.floor_le_floor h
    simpa using this
  rcases roundHalfEven_cases q with hc | ⟨hc, hh⟩
  · omega
  · rw [hc]
    have h1 : (⌊q⌋ : ℚ) < q := by linarith
    have h2 : (⌊q⌋ : ℚ) < (n : ℚ) := lt_of_lt_of_le h1 h
    have h3 : ⌊q⌋ < n := by exact_mod_cast h2
    omega

theorem le_round1 {n : ℤ} {q : ℚ} (h : (n : ℚ) ≤ q) : (n : ℚ) ≤ round1 q := by
  unfold round1
  rw [le_div_iff₀ (by norm_num : (0 : ℚ) < 10)]
  have h1 : ((n * 10 : ℤ) : ℚ) ≤ q * 10 := by push_cast; linarith
  have h2 : (n * 10 : ℤ) ≤ roundHalfEven (q * 10) := le_roundHalfEven h1
  calc (n : ℚ) * 10 = ((n * 10 : ℤ) : ℚ) := by push_cast; ring
  _ ≤ (roundHalfEven (q * 10) : ℚ) := by exact_mod_cast h2

theorem round1_le {n : ℤ} {q : ℚ} (h : q ≤ (n : ℚ)) : round1 q ≤ (n : ℚ) := by
  unfold round1
  rw [div_le_iff₀ (by norm_num : (0 : ℚ) < 10)]
  have h1 : q * 10 ≤ ((n * 10 : ℤ) : ℚ) := by push_cast; linarith
  have h2 : roundHalfEven (q * 10) ≤ (n * 10 : ℤ) := roundHalfEven_le h1
  calc (roundHalfEven (q * 10) : ℚ) ≤ ((n * 10 : ℤ) : ℚ) := by exact_mod_cast h2
  _ = (n : ℚ) * 10 := by push_cast; ring

/-! ### `detect_colors` lemmas -/

theorem mem_detect_colors {roi : List HsvPixel} {name : String} {pct : ℚ}
    (hm : (name, pct) ∈ detect_colors roi) :
    ∃ e ∈ COLOR_RANGES, name = e.1 ∧ 5 < bandPercentage roi e.2.1 e.2.2 ∧
      pct = round1 (bandPercentage roi e.2.1 e.2.2) := by
  unfold detect_colors at hm
  by_cases h0 : roi.length = 0
  · rw [if_pos h0] at hm
    cases hm
  · rw [if_neg h0, List.mem_filterMap] at hm
    obtain ⟨e, he, hsome⟩ := hm
    split_ifs at hsome with hgt
    simp only [Option.some.injEq, Prod.mk.injEq] at hsome
    exact ⟨e, he, hsome.1.symm, hgt, hsome.2.symm⟩

theorem bandPercentage_le_100 (roi : List HsvPixel) (lo hi : HsvPixel)
    (h : roi ≠ []) : bandPercentage roi lo hi ≤ 100 := by
  unfold bandPercentage
  have hc : roi.countP (fun p => inRange lo hi p) ≤ roi.length :=
    List.countP_le_length _
  have hl : 0 < (roi.length : ℚ) := by
    have : 0 < roi.length := List.length_pos.mpr h
    exact_mod_cast this
  have hq : ((roi.countP fun p => inRange lo hi p : Nat) : ℚ) / (roi.length : ℚ) ≤ 1 := by
    rw [div_le_one hl]
    exact_mod_cast hc
  nlinarith

/-- Claim C1 (amended): for every non-empty ROI, each stored percentage of
`detect_colors` is at least 5.0 (equality possible through rounding), at most
100.0, and is an integer multiple of one tenth (one decimal place); the raw
percentage before rounding is strictly above 5. -/
theorem detect_colors_percentage_bounds (roi : List HsvPixel) (h : roi ≠ [])
    (name : String) (pct : ℚ) (hm : (name, pct) ∈ detect_colors roi) :
    5 ≤ pct ∧ pct ≤ 100 ∧ ∃ n : ℤ, pct = (n : ℚ) / 10 := by
  obtain ⟨e, _, _, hgt, hpct⟩ := mem_detect_colors hm
  subst hpct
  refine ⟨?_, ?_, roundHalfEven (bandPercentage roi e.2.1 e.2.2 * 10), rfl⟩
  · have h5 : ((5 : ℤ) : ℚ) ≤ bandPercentage roi e.2.1 e.2.2 := by
      push_cast
      linarith
    have := le_round1 h5
    exact_mod_cast this
  · have h100 : bandPercentage roi e.2.1 e.2.2 ≤ ((100 : ℤ) : ℚ) := by
      push_cast
      exact bandPercentage_le_100 roi e.2.1 e.2.2 h
    have := round1_le h100
    exact_mod_cast this

/-- Claim C1 witness: the uniformly red ROI stores 100.0 for `red_low`, and
the bounds hold there. -/
theorem detect_colors_percentage_bounds_witness :
    5 ≤ (100 : ℚ) ∧ (100 : ℚ) ≤ 100 ∧ ∃ n : ℤ, (100 : ℚ) = (n : ℚ) / 10 :=
  detect_colors_percentage_bounds roiRed10 (by decide) "red_low" 100
    (by with_unfolding_all decide)

/-- Claim C1 counterexample: on `roiBoundary` the stored `red_low` value is
exactly 5.0, not strictly above 5.0 — the raw percentage 600/119 passes the
strict 5% gate but rounds down to 5.0. -/
theorem detect_colors_five_percent_boundary :
    ("red_low", (5 : ℚ)) ∈ detect_colors roiBoundary ∧ ¬(5 < (5 : ℚ)) :=
  ⟨by with_unfolding_all decide, by norm_num⟩

/-! ### Palette table structure (C4) -/

/-- Claim C4 counterexample: the palette does not contain 33 bands. -/
theorem color_ranges_not_33 : COLOR_RANGES.length ≠ 33 := by decide

/-- Claim C4 (amended): the palette contains exactly 31 named bands,
organized into seven hue families plus the three neutrals, and each neutral
band spans the full hue domain [0,180] (so the neutrals are distinguished
only by their saturation/value ranges, which are pairwise distinct). -/
theorem color_ranges_band_count :
    COLOR_RANGES.length = 31 ∧
    hueFamilies.length = 7 ∧
    COLOR_RANGES.map Prod.fst = hueFamilies.flatten ++ neutralBands ∧
    (∀ e ∈ COLOR_RANGES, e.1 ∈ neutralBands → e.2.1.h = 0 ∧ e.2.2.h = 180) ∧
    ((COLOR_RANGES.filter fun e => decide (e.1 ∈ neutralBands)).map
      (fun e => (e.2.1.s, e.2.2.s, e.2.1.v, e.2.2.v))).Nodup := by
  decide

/-- Claim C4 witness: the `white` entry is a neutral band spanning the full
hue domain. -/
theorem color_ranges_band_count_witness :
    ("white", (⟨0, 0, 200⟩ : HsvPixel), (⟨180, 30, 255⟩ : HsvPixel)).2.1.h = 0 ∧
    ("white", (⟨0, 0, 200⟩ : HsvPixel), (⟨180, 30, 255⟩ : HsvPixel)).2.2.h = 180 :=
  color_ranges_band_count.2.2.2.1 ("white", ⟨0, 0, 200⟩, ⟨180, 30, 255⟩)
    (by decide) (by decide)

/-! ### Zero-area behaviour (C7) -/

/-- Claim C7: a zero-area ROI (no pixels) makes `detect_colors` return the
empty mapping, `get_dominant_colors` the empty list, `analyze_region` the
neutral result without breakdown, and `analyze_traffic_light` the unknown
state with confidence 0 — each operation is total, so no error is raised. -/
theorem zero_area_neutral_results :
    detect_colors [] = [] ∧
    (∀ top_n, get_dominant_colors [] top_n = []) ∧
    (∀ t, analyze_region [] t = ⟨[], false, none, none⟩) ∧
    analyze_traffic_light [] = ⟨"unknown", 0⟩ :=
  ⟨rfl, fun _ => rfl, fun _ => rfl, rfl⟩

/-! ### Statelessness (C8) -/

/-- Claim C8: every operation is deterministic and stateless.  The analyzer
instance type has a single value (the class stores no attributes), every
method returns its receiver unchanged, and repeating any call on the same
inputs — threading the returned state into the second call — yields the
identical result. -/
theorem analyzer_stateless_idempotent (a : ColorAnalyzer) (roi : List HsvPixel)
    (detected : List (String × ℚ)) (t : ColorBlindnessType) (top_n : Nat) :
    (∀ b : ColorAnalyzer, b = a) ∧
    ((a.detectColorsM roi).2 = a ∧
      (((a.detectColorsM roi).2.detectColorsM roi).1 = (a.detectColorsM roi).1)) ∧
    ((a.dominantColorsM roi top_n).2 = a ∧
      (((a.dominantColorsM roi top_n).2.dominantColorsM roi top_n).1 =
        (a.dominantColorsM roi top_n).1)) ∧
    ((a.problematicM detected t).2 = a ∧
      (((a.problematicM detected t).2.problematicM detected t).1 =
        (a.problematicM detected t).1)) ∧
    ((a.regionM roi t).2 = a ∧
      (((a.regionM roi t).2.regionM roi t).1 = (a.regionM roi t).1)) ∧
    ((a.trafficM roi).2 = a ∧
      (((a.trafficM roi).2.trafficM roi).1 = (a.trafficM roi).1)) :=
  ⟨fun b => by cases a; cases b; rfl,
   ⟨rfl, rfl⟩, ⟨rfl, rfl⟩, ⟨rfl, rfl⟩, ⟨rfl, rfl⟩, ⟨rfl, rfl⟩⟩

/-! ### Flag/warning consistency (C9) -/

theorem problematic_flag_iff (detected : List (String × ℚ))
    (t : ColorBlindnessType) :
    (is_problematic_for_user detected t).1 = true ↔
      ((is_problematic_for_user detected t).2).isSome = true := by
  unfold is_problematic_for_user
  split_ifs <;> simp

/-- Claim C9: the boolean flag and the warning of `is_problematic_for_user`
are consistent — the flag is true exactly when the warning is present — and
the same holds for the fields of every `analyze_region` result. -/
theorem flag_warning_consistency (detected : List (String × ℚ))
    (roi : List HsvPixel) (t : ColorBlindnessType) :
    ((is_problematic_for_user detected t).1 = true ↔
      ((is_problematic_for_user detected t).2).isSome = true) ∧
    ((analyze_region roi t).is_problematic = true ↔
      ((analyze_region roi t).warning).isSome = true) := by
  refine ⟨problematic_flag_iff detected t, ?_⟩
  unfold analyze_region
  split_ifs
  · simp
  · exact problematic_flag_iff (detect_colors roi) t

/-! ### Problematic-color rule (C6) -/

/-- Claim C6: with an empty problematic set (as for the normal profile) the
check returns `(false, none)`; the collection is empty exactly when no
detected band is both problematic and above 10%; when at least one such band
exists, the result is `true` with a warning joining at most the first two
display names with a comma and ending with the fixed suffix; otherwise
`(false, none)`. -/
theorem is_problematic_rule (detected : List (String × ℚ))
    (t : ColorBlindnessType) :
    PROBLEMATIC_COLORS ColorBlindnessType.NORMAL = [] ∧
    (PROBLEMATIC_COLORS t = [] →
      is_problematic_for_user detected t = (false, none)) ∧
    (foundProblematic detected t = [] ↔
      ∀ e ∈ detected, e.1 ∈ PROBLEMATIC_COLORS t → e.2 ≤ 10) ∧
    (foundProblematic detected t = [] →
      is_problematic_for_user detected t = (false, none)) ∧
    (foundProblematic detected t ≠ [] →
      is_problematic_for_user detected t =
        (true, some ("Contains " ++
          String.intercalate ", "
            (((foundProblematic detected t).take 2).map Prod.fst) ++
          " - may be difficult to see"))) := by
  refine ⟨rfl, ?_, ?_, ?_, ?_⟩
  · intro h
    unfold is_problematic_for_user
    rw [if_pos (by rw [h]; rfl)]
  · unfold foundProblematic
    rw [List.filterMap_eq_nil_iff]
    constructor
    · intro h e he hmem
      have he2 := h e he
      by_contra hgt
      rw [if_pos ⟨hmem, lt_of_not_le hgt⟩] at he2
      cases he2
    · intro h e he
      rw [if_neg]
      rintro ⟨hmem, hgt⟩
      exact absurd hgt (not_lt_of_le (h e he hmem))
  · intro h
    unfold is_problematic_for_user
    split_ifs with h1 h2
    · rfl
    · rfl
    · rw [h] at h2
      exact absurd rfl h2
  · intro h
    unfold is_problematic_for_user
    split_ifs with h1 h2
    · exfalso
      apply h
      unfold foundProblematic
      apply List.filterMap_eq_nil_iff.mpr
      intro e _
      rw [if_neg]
      rintro ⟨hmem, _⟩
      rw [List.isEmpty_iff.mp h1] at hmem
      cases hmem
    · exact absurd (List.isEmpty_iff.mp h2) h
    · rfl

/-- Claim C6 witness: one problematic band above 10% for protanopia produces
the flag and the formatted warning. -/
theorem is_problematic_rule_witness :
    is_problematic_for_user [("red_low", (50 : ℚ))] ColorBlindnessType.PROTANOPIA =
      (true, some ("Contains " ++
        String.intercalate ", "
          (((foundProblematic [("red_low", (50 : ℚ))]
              ColorBlindnessType.PROTANOPIA).take 2).map Prod.fst) ++
        " - may be difficult to see")) :=
  (is_problematic_rule [("red_low", 50)] ColorBlindnessType.PROTANOPIA).2.2.2.2
    (by with_unfolding_all decide)

/-! ### Traffic-light rule (C2, C10) -/

/-- Claim C2: for a non-empty ROI the state goes to whichever of red (the
sum of the two red bands), yellow or green is strictly greater than both
others and strictly above 10, with confidence `min(pct/100, 1)`; when no
channel is the strict maximum above 10 — including exact ties — the state is
unknown with confidence 0. -/
theorem analyze_traffic_light_state_rule (roi : List HsvPixel) (h : roi ≠ []) :
    (tl_yellow_pct (detect_colors roi) < tl_red_pct (detect_colors roi) ∧
     tl_green_pct (detect_colors roi) < tl_red_pct (detect_colors roi) ∧
     10 < tl_red_pct (detect_colors roi) →
      analyze_traffic_light roi =
        ⟨"red", min (tl_red_pct (detect_colors roi) / 100) 1⟩) ∧
    (tl_red_pct (detect_colors roi) < tl_yellow_pct (detect_colors roi) ∧
     tl_green_pct (detect_colors roi) < tl_yellow_pct (detect_colors roi) ∧
     10 < tl_yellow_pct (detect_colors roi) →
      analyze_traffic_light roi =
        ⟨"yellow", min (tl_yellow_pct (detect_colors roi) / 100) 1⟩) ∧
    (tl_red_pct (detect_colors roi) < tl_green_pct (detect_colors roi) ∧
     tl_yellow_pct (detect_colors roi) < tl_green_pct (detect_colors roi) ∧
     10 < tl_green_pct (detect_colors roi) →
      analyze_traffic_light roi =
        ⟨"green", min (tl_green_pct (detect_colors roi) / 100) 1⟩) ∧
    (¬(tl_yellow_pct (detect_colors roi) < tl_red_pct (detect_colors roi) ∧
       tl_green_pct (detect_colors roi) < tl_red_pct (detect_colors roi) ∧
       10 < tl_red_pct (detect_colors roi)) →
     ¬(tl_red_pct (detect_colors roi) < tl_yellow_pct (detect_colors roi) ∧
       tl_green_pct (detect_colors roi) < tl_yellow_pct (detect_colors roi) ∧
       10 < tl_yellow_pct (detect_colors roi)) →
     ¬(tl_red_pct (detect_colors roi) < tl_green_pct (detect_colors roi) ∧
       tl_yellow_pct (detect_colors roi) < tl_green_pct (detect_colors roi) ∧
       10 < tl_green_pct (detect_colors roi)) →
      analyze_traffic_light roi = ⟨"unknown", 0⟩) := by
  have h0 : ¬(roi.length = 0) := by
    simpa [List.length_eq_zero] using h
  refine ⟨fun hr => ?_, fun hy => ?_, fun hg => ?_, fun hnr hny hng => ?_⟩
  · unfold analyze_traffic_light
    rw [if_neg h0, if_pos hr]
  · unfold analyze_traffic_light
    rw [if_neg h0,
      if_neg (by rintro ⟨h1, _, _⟩; exact (lt_asymm h1) hy.1), if_pos hy]
  · unfold analyze_traffic_light
    rw [if_neg h0,
      if_neg (by rintro ⟨_, h1, _⟩; exact (lt_asymm h1) hg.1),
      if_neg (by rintro ⟨_, h1, _⟩; exact (lt_asymm h1) hg.2.1), if_pos hg]
  · unfold analyze_traffic_light
    rw [if_neg h0, if_neg hnr, if_neg hny, if_neg hng]

/-- Claim C2 witness: the uniformly red ROI is classified red with confidence
`min(red_pct/100, 1)`. -/
theorem analyze_traffic_light_state_rule_witness :
    analyze_traffic_light roiRed10 =
      ⟨"red", min (tl_red_pct (detect_colors roiRed10) / 100) 1⟩ :=
  (analyze_traffic_light_state_rule roiRed10 (by decide)).1
    (by with_unfolding_all decide)

theorem traffic_conf_facts {p : ℚ} (hp : 10 < p) :
    0 ≤ min (p / 100) 1 ∧ min (p / 100) 1 ≤ 1 ∧ 1 / 10 < min (p / 100) 1 :=
  ⟨le_min (by linarith) (by norm_num), min_le_right _ _,
   lt_min (by linarith) (by norm_num)⟩

/-- Claim C10: the confidence of `analyze_traffic_light` lies in [0,1], is 0
exactly when the state is unknown, and is strictly greater than 0.1 whenever
a colored state is assigned. -/
theorem traffic_confidence_bounds (roi : List HsvPixel) :
    0 ≤ (analyze_traffic_light roi).confidence ∧
    (analyze_traffic_light roi).confidence ≤ 1 ∧
    ((analyze_traffic_light roi).state = "unknown" ↔
      (analyze_traffic_light roi).confidence = 0) ∧
    ((analyze_traffic_light roi).state ≠ "unknown" →
      1 / 10 < (analyze_traffic_light roi).confidence) := by
  unfold analyze_traffic_light
  split_ifs with h0 h1 h2 h3
  · exact ⟨le_refl 0, by norm_num, iff_of_true rfl rfl, fun hne => absurd rfl hne⟩
  · obtain ⟨ha, hb, hc⟩ := traffic_conf_facts h1.2.2
    exact ⟨ha, hb,
      iff_of_false (by intro hs; simp at hs)
        (ne_of_gt (lt_trans (by norm_num : (0 : ℚ) < 1 / 10) hc)),
      fun _ => hc⟩
  · obtain ⟨ha, hb, hc⟩ := traffic_conf_facts h2.2.2
    exact ⟨ha, hb,
      iff_of_false (by intro hs; simp at hs)
        (ne_of_gt (lt_trans (by norm_num : (0 : ℚ) < 1 / 10) hc)),
      fun _ => hc⟩
  · obtain ⟨ha, hb, hc⟩ := traffic_conf_facts h3.2.2
    exact ⟨ha, hb,
      iff_of_false (by intro hs; simp at hs)
        (ne_of_gt (lt_trans (by norm_num : (0 : ℚ) < 1 / 10) hc)),
      fun _ => hc⟩
  · exact ⟨le_refl 0, by norm_num, iff_of_true rfl rfl, fun hne => absurd rfl hne⟩

/-- Claim C10 witness: the assigned state on the red ROI has confidence
strictly above 0.1. -/
theorem traffic_confidence_bounds_witness :
    1 / 10 < (analyze_traffic_light roiRed10).confidence :=
  (traffic_confidence_bounds roiRed10).2.2.2 (by with_unfolding_all decide)

/-! ### Dominant-color ordering and deduplication (C3, C5) -/

theorem dedupFirst_cons (seen : List String) (d : String) (l : List String) :
    dedupFirst seen (d :: l) =
      if d ∈ seen then dedupFirst seen l else d :: dedupFirst (d :: seen) l := rfl

theorem dedupFirst_congr : ∀ (l : List String) {s₁ s₂ : List String},
    (∀ x, x ∈ s₁ ↔ x ∈ s₂) → dedupFirst s₁ l = dedupFirst s₂ l
  | [], _, _, _ => rfl
  | d :: rest, s₁, s₂, h => by
    unfold dedupFirst
    by_cases hd : d ∈ s₁
    · rw [if_pos hd, if_pos ((h d).mp hd)]
      exact dedupFirst_congr rest h
    · rw [if_neg hd, if_neg (fun hc => hd ((h d).mpr hc))]
      refine congrArg (d :: ·) (dedupFirst_congr rest ?_)
      intro x
      simp only [List.mem_cons]
      exact or_congr Iff.rfl (h x)

theorem dedupFirst_nodup : ∀ (l : List String) (seen : List String),
    (dedupFirst seen l).Nodup ∧ ∀ x ∈ dedupFirst seen l, x ∉ seen
  | [], seen => ⟨List.nodup_nil, fun x hx => absurd hx (List.not_mem_nil x)⟩
  | d :: rest, seen => by
    unfold dedupFirst
    by_cases hd : d ∈ seen
    · rw [if_pos hd]
      exact dedupFirst_nodup rest seen
    · rw [if_neg hd]
      obtain ⟨hn, hs⟩ := dedupFirst_nodup rest (d :: seen)
      refine ⟨List.nodup_cons.mpr ⟨fun hc => (hs d hc) (List.mem_cons_self d seen), hn⟩, ?_⟩
      intro x hx
      rcases List.mem_cons.mp hx with rfl | hx2
      · exact hd
      · exact fun hxs => (hs x hx2) (List.mem_cons_of_mem d hxs)

theorem dominantLoop_eq : ∀ (l : List (String × ℚ)) (acc : List String) (n : Nat),
    acc.length < n →
    dominantLoop n l acc =
      (acc ++ dedupFirst acc (l.map fun e => displayName e.1)).take n
  | [], acc, n, h => by
    unfold dominantLoop
    rw [show dedupFirst acc ([].map fun e : String × ℚ => displayName e.1) = []
        from rfl,
      List.append_nil, List.take_of_length_le (le_of_lt h)]
  | e :: rest, acc, n, h => by
    unfold dominantLoop
    simp only [List.map_cons]
    by_cases hd : displayName e.1 ∈ acc
    · rw [if_pos hd, if_neg (not_le.mpr h), dominantLoop_eq rest acc n h,
        show dedupFirst acc (displayName e.1 :: rest.map fun x => displayName x.1) =
          dedupFirst acc (rest.map fun x => displayName x.1)
        from by rw [dedupFirst_cons, if_pos hd]]
    · rw [if_neg hd,
        show dedupFirst acc (displayName e.1 :: rest.map fun x => displayName x.1) =
          displayName e.1 ::
            dedupFirst (displayName e.1 :: acc) (rest.map fun x => displayName x.1)
        from by rw [dedupFirst_cons, if_neg hd]]
      have hlen : (acc ++ [displayName e.1]).length = acc.length + 1 := by simp
      by_cases hn : n ≤ (acc ++ [displayName e.1]).length
      · have hn' : n = acc.length + 1 := by omega
        rw [if_pos hn, hn', List.take_append_eq_append_take,
          List.take_of_length_le (by omega), Nat.add_sub_cancel_left]
        simp
      · rw [if_neg hn,
          dominantLoop_eq rest (acc ++ [displayName e.1]) n (by omega),
          dedupFirst_congr (rest.map fun x => displayName x.1)
            (show ∀ x, x ∈ acc ++ [displayName e.1] ↔ x ∈ displayName e.1 :: acc
              from fun x => by simp [or_comm]),
          List.append_assoc]
        rfl

theorem dominantLoop_zero : ∀ l : List (String × ℚ),
    dominantLoop 0 l [] = (dedupFirst [] (l.map fun e => displayName e.1)).take 1
  | [] => rfl
  | e :: rest => by
    unfold dominantLoop
    rw [if_neg (List.not_mem_nil _), if_pos (by simp), List.map_cons,
      dedupFirst_cons, if_neg (List.not_mem_nil _)]
    rfl

theorem get_dominant_colors_eq (roi : List HsvPixel) (top_n : Nat) :
    get_dominant_colors roi top_n =
      (dedupFirst []
        ((sortedColors (detect_colors roi)).map fun e => displayName e.1)).take
        (max top_n 1) := by
  cases top_n with
  | zero => exact dominantLoop_zero (sortedColors (detect_colors roi))
  | succ n =>
    have hmax : max (n + 1) 1 = n + 1 := by omega
    rw [hmax]
    have h := dominantLoop_eq (sortedColors (detect_colors roi)) [] (n + 1)
      (Nat.succ_pos n)
    rw [List.nil_append] at h
    exact h

/-- Claim C3 (amended): `get_dominant_colors` returns at most `max top_n 1`
entries — at most `top_n` whenever `top_n ≥ 1`, but one entry can be emitted
when `top_n = 0` because the loop checks the bound only after appending —
and never contains duplicate display names. -/
theorem get_dominant_colors_length_nodup (roi : List HsvPixel) (top_n : Nat) :
    (get_dominant_colors roi top_n).length ≤ max top_n 1 ∧
    (get_dominant_colors roi top_n).Nodup := by
  rw [get_dominant_colors_eq]
  exact ⟨List.length_take_le _ _,
    List.Nodup.sublist (List.take_sublist _ _) (dedupFirst_nodup _ []).1⟩

/-- Claim C3 counterexample: on the green ROI with `top_n = 0` the returned
list has one entry, so its length is not at most `top_n`. -/
theorem get_dominant_colors_topn_zero_overflow :
    ¬((get_dominant_colors roiGreen10 0).length ≤ 0) := by
  with_unfolding_all decide

theorem detect_keys_sublist :
    ∀ (l : List (String × HsvPixel × HsvPixel)) (roi : List HsvPixel),
    List.Sublist ((l.filterMap fun e =>
        if 5 < bandPercentage roi e.2.1 e.2.2 then
          some (e.1, round1 (bandPercentage roi e.2.1 e.2.2))
        else none).map Prod.fst) (l.map Prod.fst)
  | [], _ => by simp
  | e :: rest, roi => by
    simp only [List.filterMap_cons]
    by_cases hc : 5 < bandPercentage roi e.2.1 e.2.2
    · rw [if_pos hc]
      simp only [List.map_cons]
      exact (detect_keys_sublist rest roi).cons₂ _
    · rw [if_neg hc]
      simp only [List.map_cons]
      exact (detect_keys_sublist rest roi).cons _

/-- Claim C5 (amended): `get_dominant_colors` sorts the detected bands by
percentage descending with ties kept in their original order — which is the
band-table iteration order, since the detected keys form a sublist of the
table keys — maps them to display names, deduplicates keeping first
occurrences, and truncates to `max top_n 1` names (exactly `top_n` for
`top_n ≥ 1`; one name can be emitted when `top_n = 0`). -/
theorem get_dominant_colors_order_characterization (roi : List HsvPixel)
    (top_n : Nat) :
    (sortedColors (detect_colors roi)).Perm (detect_colors roi) ∧
    List.Sorted pctDescending (sortedColors (detect_colors roi)) ∧
    (∀ a b : String × ℚ, List.Sublist [a, b] (detect_colors roi) → a.2 = b.2 →
      List.Sublist [a, b] (sortedColors (detect_colors roi))) ∧
    List.Sublist ((detect_colors roi).map Prod.fst) (COLOR_RANGES.map Prod.fst) ∧
    get_dominant_colors roi top_n =
      (dedupFirst []
        ((sortedColors (detect_colors roi)).map fun e => displayName e.1)).take
        (max top_n 1) := by
  refine ⟨List.perm_insertionSort _ _, List.sorted_insertionSort _ _,
    ?_, ?_, get_dominant_colors_eq roi top_n⟩
  · intro a b hsub heq
    exact List.pair_sublist_insertionSort (le_of_eq heq.symm) hsub
  · unfold detect_colors
    split_ifs
    · simp
    · exact detect_keys_sublist COLOR_RANGES roi

/-- Claim C5 witness: on the green ROI the bands `green` and `lime` tie at
100%, and the stable sort keeps them in table order. -/
theorem get_dominant_colors_order_characterization_witness :
    List.Sublist [("green", (100 : ℚ)), ("lime", (100 : ℚ))]
      (sortedColors (detect_colors roiGreen10)) :=
  (get_dominant_colors_order_characterization roiGreen10 3).2.2.1
    ("green", 100) ("lime", 100)
    (by rw [show detect_colors roiGreen10 = [("green", 100), ("lime", 100)]
          from by with_unfolding_all decide])
    rfl

/-- Claim C5 counterexample: at `top_n = 0` the code's loop still emits one
display name, so the output is not the claimed truncation to `top_n` names. -/
theorem get_dominant_colors_take_zero_cex :
    get_dominant_colors roiRed10 0 ≠
      (dedupFirst []
        ((sortedColors (detect_colors roiRed10)).map fun e => displayName e.1)).take
        0 := by
  with_unfolding_all decide

end ColorAnalysis
